import Mathlib

/-!
Shallow embedding of the layered-planet rendering core (`src/index.js`):
scene parameters, the patched-shader uniform handle, the per-frame update
`updateScene`, the injected GLSL fragments (cloud shadow, night-lights
emissive gate, ocean roughness), texture-loading scene initialization, and
the one-shot startup camera animation.

JavaScript numbers are modelled as real numbers; the JavaScript remainder
operator `%` (sign of the dividend) is modelled by `jsModOne` for the only
modulus used by the code, `x % 1`.
-/

namespace ThreeJSEarth

noncomputable section

open Real

/-- JavaScript remainder `x % 1`: `x - trunc x`, so it carries the sign of
the dividend (`0.6 % 1 = 0.6`, `-1.2 % 1 = -0.2`). -/
def jsModOne (x : ℝ) : ℝ :=
  if 0 ≤ x then Int.fract x else -(Int.fract (-x))

/-- GLSL `clamp(x, minVal, maxVal) = min(max(x, minVal), maxVal)`. -/
def glslClamp (x minVal maxVal : ℝ) : ℝ :=
  min (max x minVal) maxVal

/-- GLSL `smoothstep(edge0, edge1, x)`: clamp the normalized position of `x`
between the edges to `[0,1]`, then apply the Hermite polynomial
`t * t * (3 - 2 * t)`. -/
def smoothstep (edge0 edge1 x : ℝ) : ℝ :=
  let t := glslClamp ((x - edge0) / (edge1 - edge0)) 0 1
  t * t * (3 - 2 * t)

/-- The `params` object of `src/index.js` (source name `params`): the
mutable record of the live-tunable scene controls.  The three `atm*`
fields model the `.value` cell of the corresponding uniform objects. -/
structure SceneParameters where
  sunIntensity : ℝ
  speedFactor : ℝ
  bumpScale : ℝ
  metalness : ℝ
  fresnelIntensity : ℝ
  atmOpacity : ℝ
  atmPowFactor : ℝ
  atmMultiplier : ℝ

/-- Default values of `params` at startup (`src/index.js` lines 32-41). -/
def defaultParams : SceneParameters where
  sunIntensity := 1.8
  speedFactor := 2.0
  bumpScale := 0.03
  metalness := 0.1
  fresnelIntensity := 1.4
  atmOpacity := 0.7
  atmPowFactor := 4.1
  atmMultiplier := 6.9

/-- Texture wrap modes (only `RepeatWrapping` is set by the code, on the
cloud texture; loaded textures start with the three.js default). -/
inductive WrapMode
  | clampToEdge
  | repeatWrapping
deriving DecidableEq, Repr

/-- A decoded texture, as an opaque resource handle plus the one sampler
property the code mutates (`wrapS`). -/
structure Texture where
  id : Nat
  wrapS : WrapMode
deriving DecidableEq, Repr

/-- The uniforms the `onBeforeCompile` callback installs on the surface
material's generated shader (`src/index.js` lines 128-131). -/
structure ShaderUniforms where
  tClouds : Texture
  uv_xOffset : ℝ
  fresnelIntensity : ℝ

/-- The `onBeforeCompile` callback's effect on the uniform set: install the
cloud texture with horizontal repeat wrapping, a zero UV x-offset, and the
current Fresnel intensity parameter (`src/index.js` lines 127-131). -/
def onBeforeCompile (cloudsMap : Texture) (fresnel : ℝ) : ShaderUniforms where
  tClouds := { cloudsMap with wrapS := .repeatWrapping }
  uv_xOffset := 0
  fresnelIntensity := fresnel

/-- The scene state touched by `initScene` and `updateScene`: the yaws of
the three shells (local `rotateY` accumulators), the group's fixed axial
tilt, the material/light scalars the parameter bridge writes, the shared
`params` record, and the lazily created patched-shader handle
(`earthMat.userData.shader`, `none` until the material first compiles). -/
structure AppState where
  earthYaw : ℝ
  cloudsYaw : ℝ
  atmosYaw : ℝ
  groupTiltZ : ℝ
  dirLightIntensity : ℝ
  bumpScale : ℝ
  metalness : ℝ
  params : SceneParameters
  shader : Option ShaderUniforms

/-- The Earth's axial tilt applied to the rotation group:
`(23.5 / 360) * 2 * Math.PI` (`src/index.js` line 83). -/
def earthAxialTiltZ : ℝ := (23.5 / 360) * (2 * π)

/-- Scene state at the end of `initScene`: both Surface and Clouds
pre-rotated by `rotateY(-0.3)`, atmosphere unrotated, group tilted by
23.5 degrees, material scalars taken from the default parameters, and no
patched shader yet (the material has not compiled). -/
def initialState : AppState where
  earthYaw := -0.3
  cloudsYaw := -0.3
  atmosYaw := 0
  groupTiltZ := earthAxialTiltZ
  dirLightIntensity := defaultParams.sunIntensity
  bumpScale := defaultParams.bumpScale
  metalness := defaultParams.metalness
  params := defaultParams
  shader := none

/-- The decoded cloud texture (opaque handle; wrap mode starts at the
three.js default and is switched to repeat by `onBeforeCompile`). -/
def cloudsTexture : Texture where
  id := 3
  wrapS := .clampToEdge

/-- The uniform set produced when the surface material first compiles. -/
def compiledUniforms : ShaderUniforms :=
  onBeforeCompile cloudsTexture defaultParams.fresnelIntensity

/-- Scene state once the surface material has compiled and
`earthMat.userData.shader` holds the patched-shader handle. -/
def initialCompiledState : AppState :=
  { initialState with shader := some compiledUniforms }

/-- The per-frame cloud-shadow UV increment of `updateScene`:
`(interval * 0.005 * params.speedFactor) / (2 * Math.PI)`
(`src/index.js` line 254). -/
def cloudOffsetIncrement (interval speedFactor : ℝ) : ℝ :=
  (interval * 0.005 * speedFactor) / (2 * π)

/-- The per-frame update (`src/index.js` lines 245-257):
`earth.rotateY(interval * 0.005 * params.speedFactor)`,
`clouds.rotateY(interval * 0.01 * params.speedFactor)`, and, when the
patched shader handle exists,
`shader.uniforms.uv_xOffset.value += offset % 1` with
`offset = (interval * 0.005 * params.speedFactor) / (2 * Math.PI)`.
The unused `elapsed` argument and the calls `controls.update()` /
`stats1.update()` (external collaborators) are not modelled. -/
def updateScene (interval : ℝ) (s : AppState) : AppState :=
  { s with
    earthYaw := s.earthYaw + interval * 0.005 * s.params.speedFactor
    cloudsYaw := s.cloudsYaw + interval * 0.01 * s.params.speedFactor
    shader :=
      match s.shader with
      | none => none
      | some u =>
          some { u with
            uv_xOffset :=
              u.uv_xOffset +
                jsModOne (cloudOffsetIncrement interval s.params.speedFactor) } }

/-- The cloud-shadow UV offset uniform currently held by the patched
shader (0 when the shader has not compiled yet). -/
def shaderOffset (s : AppState) : ℝ :=
  match s.shader with
  | none => 0
  | some u => u.uv_xOffset

/-- The GUI mutating `params.speedFactor` between frames (the rotation
speed control has no `onChange` callback; the frame updater reads the
field directly). -/
def setSpeedFactor (s : AppState) (v : ℝ) : AppState :=
  { s with params := { s.params with speedFactor := v } }

/-- Run a sequence of frames; each frame is a pair
`(interval, speedFactor)`: the speed-factor control is applied, then
`updateScene` runs with that frame's interval. -/
def runFrames (frames : List (ℝ × ℝ)) (s : AppState) : AppState :=
  frames.foldl (fun st f => updateScene f.1 (setSpeedFactor st f.2)) s

/-- Definition following the spec's words, for comparison with the code:
the cloud-shadow offset as "the true accumulated sum of all per-frame
increments taken modulo 1". -/
def specCloudShadowOffset (frames : List (ℝ × ℝ)) : ℝ :=
  Int.fract ((frames.map fun f => cloudOffsetIncrement f.1 f.2).sum)

/-- The multiplicative darkening the injected cloud-shadow fragment applies
to the surface diffuse albedo:
`max(1.0 - cloudsMapValue, 0.2)` (`src/index.js` line 155). -/
def cloudShadowFactor (cloudsMapValue : ℝ) : ℝ :=
  max (1 - cloudsMapValue) 0.2

/-- The multiplier the injected roughness fragment applies to the base
roughness: invert the ocean-mask texel, then
`clamp(texelRoughness.g, 0.5, 1.0)` (`src/index.js` lines 171-173). -/
def roughnessMultiplier (texelG : ℝ) : ℝ :=
  glslClamp (1 - texelG) 0.5 1.0

/-- The scalar factor multiplying the emissive night-lights color in the
injected emissive fragment, as a function of
`d = dot(geometryNormal, directionalLights[0].direction)`:
`1.0 - smoothstep(-0.02, 0.0, d)` (`src/index.js` line 148). -/
def emissiveFactor (d : ℝ) : ℝ :=
  1 - smoothstep (-0.02) 0 d

/-- The Fresnel-intensity `onChange` callback (`src/index.js` lines
201-209): read `earthMat.userData.shader`; if the handle exists, write the
value into its `fresnelIntensity` uniform, otherwise do nothing. -/
def writeFresnelIntensity (shader : Option ShaderUniforms) (val : ℝ) :
    Option ShaderUniforms :=
  match shader with
  | none => none
  | some u => some { u with fresnelIntensity := val }

/-- The five required textures awaited by `initScene`
(`src/index.js` lines 66-80). -/
inductive TextureName
  | albedo
  | bump
  | clouds
  | ocean
  | nightLights
deriving DecidableEq, Repr

/-- A texture-load failure, surfaced as a resource error naming the asset. -/
inductive LoadError
  | resourceError (texture : TextureName)
deriving DecidableEq, Repr

/-- Scene initialization (`src/index.js` lines 56-243), restricted to its
resource-acquisition skeleton: the five texture loads are awaited in
source order, a rejected load aborts the whole async function (the thrown
resource error propagates to the harness), and only after all five resolve
are the shells built, added to the group, and the group added to the
scene, yielding `initialState`. -/
def initSceneModel (load : TextureName → Except LoadError Texture) :
    Except LoadError AppState :=
  match load .albedo with
  | .error e => .error e
  | .ok _albedoMap =>
    match load .bump with
    | .error e => .error e
    | .ok _bumpMap =>
      match load .clouds with
      | .error e => .error e
      | .ok _cloudsMap =>
        match load .ocean with
        | .error e => .error e
        | .ok _oceanMap =>
          match load .nightLights with
          | .error e => .error e
          | .ok _lightsMap => .ok initialState

/-- A load function whose cloud-texture load fails, all other loads
succeeding. -/
def failingLoad : TextureName → Except LoadError Texture
  | .clouds => .error (.resourceError .clouds)
  | _ => .ok { id := 0, wrapS := .clampToEdge }

/-- Modelled from the spec: phases of the one-shot startup camera
animation.  The gsap tween runtime and the `runApp` harness that invokes
`initScene` once are not under `src/`; the spec prescribes "an explicit
two-state machine {Approaching, Settled} with a single allowed
transition", preceded here by the pre-start `idle` phase. -/
inductive TweenPhase
  | idle
  | approaching
  | settled
deriving DecidableEq, Repr

/-- Modelled from the spec: observable state of the startup camera
animation — current phase, camera distance, the orbit-controls enabled
flag, and a counter of how many times the controls have been re-enabled. -/
structure CameraAnimState where
  phase : TweenPhase
  cameraZ : ℚ
  controlsEnabled : Bool
  enableEvents : Nat
deriving DecidableEq, Repr

/-- Modelled from the spec: state before the startup animation is
invoked — camera at the far framing (`z = 100`), controls enabled, no
re-enable event yet. -/
def initialAnimState : CameraAnimState where
  phase := .idle
  cameraZ := 100
  controlsEnabled := true
  enableEvents := 0

/-- Modelled from the spec: invoking the startup camera tween.  From
`idle` it starts the approach and disables orbit-control input; while a
run is in progress, or once the animation has completed, a further
invocation is a no-op (no second concurrent animation, no restart). -/
def startZoomAnimation (s : CameraAnimState) : CameraAnimState :=
  match s.phase with
  | .idle => { s with phase := .approaching, controlsEnabled := false }
  | .approaching => s
  | .settled => s

/-- Modelled from the spec: completion of the approach animation (the
`onComplete` callback): the camera reaches the final framing (`z = 30`)
and orbit controls are re-enabled; in any other phase completion does
nothing. -/
def completeZoomAnimation (s : CameraAnimState) : CameraAnimState :=
  match s.phase with
  | .approaching =>
      { s with
        phase := .settled
        cameraZ := 30
        controlsEnabled := true
        enableEvents := s.enableEvents + 1 }
  | _ => s

/-- Events affecting the startup camera animation. -/
inductive AnimEvent
  | start
  | complete
deriving DecidableEq, Repr

/-- One animation event applied to the animation state. -/
def animStep (s : CameraAnimState) (e : AnimEvent) : CameraAnimState :=
  match e with
  | .start => startZoomAnimation s
  | .complete => completeZoomAnimation s

/-- The animation state reached from startup by a sequence of events. -/
def animRun (events : List AnimEvent) : CameraAnimState :=
  events.foldl animStep initialAnimState

/-- Invariant of the startup-animation state machine: controls are
disabled exactly while approaching, and the re-enable event fires exactly
on the single transition into `settled`. -/
def AnimInv (s : CameraAnimState) : Prop :=
  (s.phase = .approaching → s.controlsEnabled = false ∧ s.enableEvents = 0) ∧
  (s.phase = .idle → s.enableEvents = 0) ∧
  (s.phase = .settled → s.enableEvents = 1 ∧ s.controlsEnabled = true)

/-- A value already in `[0, 1)` is a fixed point of the JavaScript
remainder by one. -/
theorem jsModOne_eq_self {x : ℝ} (h0 : 0 ≤ x) (h1 : x < 1) : jsModOne x = x := by
  rw [jsModOne, if_pos h0]
  exact Int.fract_eq_self.mpr ⟨h0, h1⟩

/-- With `interval = 240π` and `speedFactor = 1` the per-frame UV increment
is exactly `0.6`. -/
theorem increment_at_240pi : cloudOffsetIncrement (240 * π) 1 = 0.6 := by
  rw [cloudOffsetIncrement]
  have hπ : (π : ℝ) ≠ 0 := Real.pi_ne_zero
  field_simp
  ring

/-- The uniform after a sequence of frames is its starting value plus the
plain sum of the individually wrapped per-frame increments: the running
total itself is never reduced modulo one. -/
theorem runFrames_offset (frames : List (ℝ × ℝ)) (s : AppState)
    (u : ShaderUniforms) (hs : s.shader = some u) :
    shaderOffset (runFrames frames s) =
      u.uv_xOffset +
        (frames.map fun f => jsModOne (cloudOffsetIncrement f.1 f.2)).sum := by
  induction frames generalizing s u with
  | nil => simp [runFrames, shaderOffset, hs]
  | cons f fs ih =>
      have hstep : (updateScene f.1 (setSpeedFactor s f.2)).shader =
          some { u with
            uv_xOffset := u.uv_xOffset + jsModOne (cloudOffsetIncrement f.1 f.2) } := by
        simp [updateScene, setSpeedFactor, hs]
      have hrec := ih (updateScene f.1 (setSpeedFactor s f.2)) _ hstep
      simp only [runFrames, List.foldl_cons] at hrec ⊢
      rw [hrec]
      simp [add_assoc]

/-- C1: the claim that the `uv_xOffset` accumulator stays in `[0, 1)` (and
equals the accumulated sum modulo 1) is false: after two frames of
interval `240π` at speed factor 1, each contributing `0.6`, the uniform
holds `1.2`, outside `[0, 1)` and different from the spec's
sum-modulo-one value `0.2`. -/
theorem C1_counterexample :
    shaderOffset (runFrames [(240 * π, 1), (240 * π, 1)] initialCompiledState) = 1.2 ∧
    ¬ shaderOffset (runFrames [(240 * π, 1), (240 * π, 1)] initialCompiledState) < 1 ∧
    shaderOffset (runFrames [(240 * π, 1), (240 * π, 1)] initialCompiledState) ≠
      specCloudShadowOffset [(240 * π, 1), (240 * π, 1)] := by
  have hsome : initialCompiledState.shader = some compiledUniforms := rfl
  have hval := runFrames_offset [(240 * π, 1), (240 * π, 1)]
    initialCompiledState compiledUniforms hsome
  have hmod : jsModOne (cloudOffsetIncrement (240 * π) 1) = 0.6 := by
    rw [increment_at_240pi]
    exact jsModOne_eq_self (by norm_num) (by norm_num)
  have huv : compiledUniforms.uv_xOffset = 0 := rfl
  have hoff :
      shaderOffset (runFrames [(240 * π, 1), (240 * π, 1)] initialCompiledState) = 1.2 := by
    rw [hval, huv]
    simp [hmod]
    norm_num
  refine ⟨hoff, ?_, ?_⟩
  · rw [hoff]; norm_num
  · rw [hoff, specCloudShadowOffset]
    simp [increment_at_240pi]
    have hsum : (0.6 : ℝ) + 0.6 = 1.2 := by norm_num
    rw [hsum]
    have hfl : ⌊(1.2 : ℝ)⌋ = 1 := by
      rw [Int.floor_eq_iff]
      constructor <;> norm_num
    rw [Int.fract, hfl]
    norm_num

/-- C1 (amended): after any sequence of frames the cloud-shadow offset
uniform equals the sum of the per-frame increments each reduced modulo 1;
the running accumulator itself is never wrapped, so it is not confined to
`[0, 1)`. -/
theorem C1_accumulator_unwrapped (frames : List (ℝ × ℝ)) :
    shaderOffset (runFrames frames initialCompiledState) =
      (frames.map fun f => jsModOne (cloudOffsetIncrement f.1 f.2)).sum := by
  have hsome : initialCompiledState.shader = some compiledUniforms := rfl
  rw [runFrames_offset frames initialCompiledState compiledUniforms hsome]
  simp [compiledUniforms, onBeforeCompile]

/-- C2: in every frame update with positive speed factor, the Clouds yaw
delta is exactly twice the Surface yaw delta (base rates 0.01 vs 0.005). -/
theorem C2_clouds_yaw_twice_surface (interval : ℝ) (s : AppState)
    (h : 0 < s.params.speedFactor) :
    (updateScene interval s).cloudsYaw - s.cloudsYaw =
      2 * ((updateScene interval s).earthYaw - s.earthYaw) := by
  simp only [updateScene]
  ring

/-- Witness for C2 at `interval = 1` on the compiled initial state, whose
speed factor is the default `2.0 > 0`. -/
theorem C2_witness :
    0 < initialCompiledState.params.speedFactor ∧
    (updateScene 1 initialCompiledState).cloudsYaw - initialCompiledState.cloudsYaw =
      2 * ((updateScene 1 initialCompiledState).earthYaw -
        initialCompiledState.earthYaw) :=
  ⟨by norm_num [initialCompiledState, initialState, defaultParams],
   C2_clouds_yaw_twice_surface 1 initialCompiledState
     (by norm_num [initialCompiledState, initialState, defaultParams])⟩

/-- C3: one frame from the default compiled state with `interval = 1`,
`speedFactor = 2` and base rate `0.005` advances Surface yaw by `0.01`,
Clouds yaw by `0.02`, and the cloud-shadow offset uniform by
`0.01 / (2π)`. -/
theorem C3_single_frame_scenario :
    (updateScene 1 initialCompiledState).earthYaw =
      initialCompiledState.earthYaw + 0.01 ∧
    (updateScene 1 initialCompiledState).cloudsYaw =
      initialCompiledState.cloudsYaw + 0.02 ∧
    shaderOffset (updateScene 1 initialCompiledState) =
      shaderOffset initialCompiledState + 0.01 / (2 * π) := by
  have hsf : initialCompiledState.params.speedFactor = 2 := by
    norm_num [initialCompiledState, initialState, defaultParams]
  have hinc : cloudOffsetIncrement 1 initialCompiledState.params.speedFactor =
      0.01 / (2 * π) := by
    rw [hsf, cloudOffsetIncrement]
    norm_num
  have h2π : (0 : ℝ) < 2 * π := by positivity
  have hlt : (0.01 : ℝ) / (2 * π) < 1 := by
    rw [div_lt_one h2π]
    have := Real.pi_gt_three
    linarith
  have hmod : jsModOne (cloudOffsetIncrement 1 initialCompiledState.params.speedFactor) =
      0.01 / (2 * π) := by
    rw [hinc]
    exact jsModOne_eq_self (by positivity) hlt
  refine ⟨?_, ?_, ?_⟩
  · simp only [updateScene]
    rw [hsf]
    norm_num
  · simp only [updateScene]
    rw [hsf]
    norm_num
  · have hsome : initialCompiledState.shader = some compiledUniforms := rfl
    have hstep : shaderOffset (updateScene 1 initialCompiledState) =
        compiledUniforms.uv_xOffset +
          jsModOne (cloudOffsetIncrement 1 initialCompiledState.params.speedFactor) := by
      simp [updateScene, shaderOffset, hsome]
    rw [hstep, hmod]
    have h1 : compiledUniforms.uv_xOffset = 0 := rfl
    have h2 : shaderOffset initialCompiledState = 0 := rfl
    rw [h1, h2]

/-- C4: for any cloud-sample value in `[0, 1]`, the diffuse darkening
factor `max(1 - sample, 0.2)` lies in `[0.2, 1]`: cloud shadow never fully
blacks out terrain. -/
theorem C4_cloud_shadow_floor (c : ℝ) (h0 : 0 ≤ c) (h1 : c ≤ 1) :
    0.2 ≤ cloudShadowFactor c ∧ cloudShadowFactor c ≤ 1 := by
  constructor
  · exact le_max_right _ _
  · exact max_le (by linarith) (by norm_num)

/-- Witness for C4 at the cloud sample `0.5`. -/
theorem C4_witness :
    (0 : ℝ) ≤ 0.5 ∧ (0.5 : ℝ) ≤ 1 ∧
    (0.2 ≤ cloudShadowFactor 0.5 ∧ cloudShadowFactor 0.5 ≤ 1) :=
  ⟨by norm_num, by norm_num, C4_cloud_shadow_floor 0.5 (by norm_num) (by norm_num)⟩

/-- C5: for any ocean-mask sample in `[0, 1]`, the roughness multiplier
computed by inverting the sample and clamping lies in `[0.5, 1]`. -/
theorem C5_roughness_clamp_range (m : ℝ) (h0 : 0 ≤ m) (h1 : m ≤ 1) :
    0.5 ≤ roughnessMultiplier m ∧ roughnessMultiplier m ≤ 1 := by
  rw [roughnessMultiplier, glslClamp]
  constructor
  · apply le_min
    · exact le_max_right _ _
    · norm_num
  · have hmin := min_le_right (max (1 - m) 0.5) (1.0 : ℝ)
    linarith

/-- Witness for C5 at the mask sample `0`. -/
theorem C5_witness :
    (0 : ℝ) ≤ 0 ∧ (0 : ℝ) ≤ 1 ∧
    (0.5 ≤ roughnessMultiplier 0 ∧ roughnessMultiplier 0 ≤ 1) :=
  ⟨le_refl 0, by norm_num, C5_roughness_clamp_range 0 (le_refl 0) (by norm_num)⟩

/-- C6: writing the Fresnel-intensity parameter with no patched shader
handle is a silent no-op (the handle stays `none`, nothing is raised);
with a handle present the same write sets the `fresnelIntensity` uniform
to the given value and leaves the other uniforms unchanged. -/
theorem C6_fresnel_write_noop_or_update :
    (∀ v : ℝ, writeFresnelIntensity none v = none) ∧
    (∀ (u : ShaderUniforms) (v : ℝ),
      (writeFresnelIntensity (some u) v).map ShaderUniforms.fresnelIntensity =
        some v ∧
      (writeFresnelIntensity (some u) v).map ShaderUniforms.uv_xOffset =
        some u.uv_xOffset ∧
      (writeFresnelIntensity (some u) v).map ShaderUniforms.tClouds =
        some u.tClouds) :=
  ⟨fun _ => rfl, fun _ _ => ⟨rfl, rfl, rfl⟩⟩

/-- C7: if any required texture load fails, scene initialization surfaces
the resource error: the whole construction aborts and no scene state is
produced. -/
theorem C7_init_aborts_on_load_failure
    (load : TextureName → Except LoadError Texture)
    (h : ∃ t e, load t = .error e) :
    ∃ e, initSceneModel load = .error e := by
  obtain ⟨t, e, ht⟩ := h
  cases h1 : load TextureName.albedo with
  | error e1 => exact ⟨e1, by simp [initSceneModel, h1]⟩
  | ok a1 =>
  cases h2 : load TextureName.bump with
  | error e2 => exact ⟨e2, by simp [initSceneModel, h1, h2]⟩
  | ok a2 =>
  cases h3 : load TextureName.clouds with
  | error e3 => exact ⟨e3, by simp [initSceneModel, h1, h2, h3]⟩
  | ok a3 =>
  cases h4 : load TextureName.ocean with
  | error e4 => exact ⟨e4, by simp [initSceneModel, h1, h2, h3, h4]⟩
  | ok a4 =>
  cases h5 : load TextureName.nightLights with
  | error e5 => exact ⟨e5, by simp [initSceneModel, h1, h2, h3, h4, h5]⟩
  | ok a5 =>
    exfalso
    cases t with
    | albedo => rw [h1] at ht; exact Except.noConfusion ht
    | bump => rw [h2] at ht; exact Except.noConfusion ht
    | clouds => rw [h3] at ht; exact Except.noConfusion ht
    | ocean => rw [h4] at ht; exact Except.noConfusion ht
    | nightLights => rw [h5] at ht; exact Except.noConfusion ht

/-- Witness for C7: the load function whose cloud-texture load fails makes
initialization return a resource error. -/
theorem C7_witness : ∃ e, initSceneModel failingLoad = Except.error e :=
  C7_init_aborts_on_load_failure failingLoad
    ⟨TextureName.clouds, LoadError.resourceError TextureName.clouds, rfl⟩

/-- C8: the night-lights emissive factor is exactly 0 for every
non-negative normal-light dot product (day side), varies continuously
(smooth threshold, not a hard cutoff), and is exactly 1 once the dot
product is at most `-0.02` (night side). -/
theorem C8_emissive_day_night_gate :
    (∀ d : ℝ, 0 ≤ d → emissiveFactor d = 0) ∧
    Continuous emissiveFactor ∧
    (∀ d : ℝ, d ≤ -0.02 → emissiveFactor d = 1) := by
  have key : ∀ d : ℝ, emissiveFactor d =
      1 - min (max ((d + 0.02) / 0.02) 0) 1 * min (max ((d + 0.02) / 0.02) 0) 1 *
        (3 - 2 * min (max ((d + 0.02) / 0.02) 0) 1) := by
    intro d
    simp only [emissiveFactor, smoothstep, glslClamp]
    norm_num
  refine ⟨?_, ?_, ?_⟩
  · intro d hd
    have hone : (1 : ℝ) ≤ (d + 0.02) / 0.02 := by
      rw [le_div_iff₀ (by norm_num : (0 : ℝ) < 0.02)]
      linarith
    have hmax : max ((d + 0.02) / 0.02) 0 = (d + 0.02) / 0.02 :=
      max_eq_left (by linarith)
    have hclamp : min (max ((d + 0.02) / 0.02) 0) 1 = 1 := by
      rw [hmax]
      exact min_eq_right hone
    rw [key d, hclamp]
    norm_num
  · have hc : Continuous fun d : ℝ => min (max ((d + 0.02) / 0.02) 0) 1 :=
      (((continuous_id.add continuous_const).div_const _).max
        continuous_const).min continuous_const
    have heq : emissiveFactor = fun d : ℝ =>
        1 - min (max ((d + 0.02) / 0.02) 0) 1 * min (max ((d + 0.02) / 0.02) 0) 1 *
          (3 - 2 * min (max ((d + 0.02) / 0.02) 0) 1) := funext key
    rw [heq]
    exact continuous_const.sub
      ((hc.mul hc).mul (continuous_const.sub (continuous_const.mul hc)))
  · intro d hd
    have hnp : (d + 0.02) / 0.02 ≤ 0 :=
      div_nonpos_iff.mpr (Or.inr ⟨by linarith, by norm_num⟩)
    have hclamp : min (max ((d + 0.02) / 0.02) 0) 1 = 0 := by
      rw [max_eq_right hnp]
      exact min_eq_left (by norm_num)
    rw [key d, hclamp]
    norm_num

/-- Witness for C8: a lit point (`d = 0`) has zero emissive factor, a deep
night-side point (`d = -1`) has emissive factor 1. -/
theorem C8_witness : emissiveFactor 0 = 0 ∧ emissiveFactor (-1) = 1 :=
  ⟨C8_emissive_day_night_gate.1 0 (by norm_num),
   C8_emissive_day_night_gate.2.2 (-1) (by norm_num)⟩

/-- The startup-animation invariant holds at the initial state. -/
theorem animInv_initial : AnimInv initialAnimState := by
  refine ⟨?_, ?_, ?_⟩ <;> intro hp <;> simp [initialAnimState] at hp ⊢

/-- The startup-animation invariant is preserved by every event. -/
theorem animInv_step (s : CameraAnimState) (e : AnimEvent) (h : AnimInv s) :
    AnimInv (animStep s e) := by
  obtain ⟨h1, h2, h3⟩ := h
  cases e <;> cases hp : s.phase <;>
    simp_all [animStep, startZoomAnimation, completeZoomAnimation, AnimInv]

/-- The startup-animation invariant holds in every reachable state. -/
theorem animRun_inv (events : List AnimEvent) : AnimInv (animRun events) := by
  rw [animRun]
  have hfold : ∀ (l : List AnimEvent) (s : CameraAnimState),
      AnimInv s → AnimInv (l.foldl animStep s) := by
    intro l
    induction l with
    | nil => intro s hs; simpa using hs
    | cons e es ih => intro s hs; exact ih _ (animInv_step s e hs)
  exact hfold events initialAnimState animInv_initial

/-- Invoking the startup camera animation is idempotent: a second
invocation while a run is in progress (or after completion) changes
nothing. -/
theorem startZoomAnimation_idem (s : CameraAnimState) :
    startZoomAnimation (startZoomAnimation s) = startZoomAnimation s := by
  cases hp : s.phase <;> simp [startZoomAnimation, hp]

/-- C9: the startup camera approach runs at most once.  In every reachable
animation state, a second invocation of the tween is a no-op, orbit
controls are disabled for the whole approaching phase, the re-enable
event has fired at most once, and reaching the settled phase means it
fired exactly once with controls back on. -/
theorem C9_one_shot_camera_animation (events : List AnimEvent) :
    startZoomAnimation (startZoomAnimation (animRun events)) =
      startZoomAnimation (animRun events) ∧
    ((animRun events).phase = .approaching →
      (animRun events).controlsEnabled = false) ∧
    (animRun events).enableEvents ≤ 1 ∧
    ((animRun events).phase = .settled →
      (animRun events).enableEvents = 1 ∧
        (animRun events).controlsEnabled = true) := by
  obtain ⟨h1, h2, h3⟩ := animRun_inv events
  refine ⟨startZoomAnimation_idem _, fun hp => (h1 hp).1, ?_, h3⟩
  cases hp : (animRun events).phase with
  | idle => simp [h2 hp]
  | approaching => simp [(h1 hp).2]
  | settled => simp [(h3 hp).1]

/-- Witness for C9: after a single start event the controls are disabled
and a run is in progress; after start followed by completion the machine
is settled with controls re-enabled exactly once. -/
theorem C9_witness :
    (animRun [AnimEvent.start]).controlsEnabled = false ∧
    (animRun [AnimEvent.start, AnimEvent.complete]).enableEvents = 1 ∧
    (animRun [AnimEvent.start, AnimEvent.complete]).controlsEnabled = true :=
  ⟨(C9_one_shot_camera_animation [AnimEvent.start]).2.1 (by rfl),
   ((C9_one_shot_camera_animation [AnimEvent.start, AnimEvent.complete]).2.2.2
     (by rfl)).1,
   ((C9_one_shot_camera_animation [AnimEvent.start, AnimEvent.complete]).2.2.2
     (by rfl)).2⟩

/-- C10: a frame update changes only the Surface yaw, the Clouds yaw and,
when the patched shader handle exists, its `uv_xOffset` uniform; the
Atmosphere rotation, the group's axial tilt, the light intensity, the
material scalars, every scene parameter, the handle's existence and its
other uniforms are all unchanged. -/
theorem C10_update_touches_only_yaws_and_offset (interval : ℝ) (s : AppState) :
    (updateScene interval s).atmosYaw = s.atmosYaw ∧
    (updateScene interval s).groupTiltZ = s.groupTiltZ ∧
    (updateScene interval s).dirLightIntensity = s.dirLightIntensity ∧
    (updateScene interval s).bumpScale = s.bumpScale ∧
    (updateScene interval s).metalness = s.metalness ∧
    (updateScene interval s).params = s.params ∧
    (updateScene interval s).earthYaw =
      s.earthYaw + interval * 0.005 * s.params.speedFactor ∧
    (updateScene interval s).cloudsYaw =
      s.cloudsYaw + interval * 0.01 * s.params.speedFactor ∧
    ((updateScene interval s).shader).isSome = (s.shader).isSome ∧
    ((updateScene interval s).shader).map ShaderUniforms.fresnelIntensity =
      (s.shader).map ShaderUniforms.fresnelIntensity ∧
    ((updateScene interval s).shader).map ShaderUniforms.tClouds =
      (s.shader).map ShaderUniforms.tClouds ∧
    ((updateScene interval s).shader).map ShaderUniforms.uv_xOffset =
      (s.shader).map fun u =>
        u.uv_xOffset + jsModOne (cloudOffsetIncrement interval s.params.speedFactor) := by
  cases hs : s.shader <;> simp [updateScene, hs]

end

end ThreeJSEarth
